import Mathlib

/-!
Verification development for the compliance-alert dashboard.

Shallow embedding of the alert-generation engine
(src/services/alertGenerator.ts), the store merge and aggregate metrics
(src/App.tsx and the App variant carrying the processed/minutes metrics),
and the workflow modal (src/components/AlertDetailModal.tsx).

Conventions of the embedding:
* JavaScript numbers are embedded as exact rationals; instants (ISO strings
  compared through Date.getTime in the source) are embedded as rational
  epoch milliseconds.
* The wall clock read by the engine (Date.now for identifiers,
  Date.getHours for the after-hours rule) is passed as an explicit
  DateLike argument.
* Map.get is embedded as a function into Option.
* Decimal display formatting (toFixed, toLocaleString) is abstracted by
  ratText; no verified property depends on the rendered digits.
-/

namespace ComplianceDashboard

/-- Severity values from src/types.ts. -/
inductive Severity
  | Critical
  | High
  | Medium
  | Low
  deriving DecidableEq, Repr

/-- Workflow status values from src/types.ts. -/
inductive Status
  | New
  | InReview
  | Escalated
  | Dismissed
  | Resolved
  deriving DecidableEq, Repr

/-- The closed five-value alert taxonomy from src/types.ts. -/
inductive AlertType
  | MarketManipulation
  | WashTrading
  | Spoofing
  | InsiderTrading
  | PositionLimitBreach
  deriving DecidableEq, BEq, Repr

/-- Category argument accepted by createAlert: either a member of the closed
taxonomy, or one of the two auxiliary categories produced by rules 2 and 3. -/
inductive RawCategory
  | alertType (t : AlertType)
  | unusualActivity
  | suspiciousTradingPattern
  deriving DecidableEq, Repr

/-- Trader profile from src/types.ts. -/
structure Trader where
  id : String
  name : String
  email : String
  firm : String
  registrationDate : String
  deriving DecidableEq, Repr

/-- Timeline event from src/types.ts; the timestamp is the numeric instant. -/
structure TimelineEvent where
  id : String
  timestamp : ℚ
  action : String
  user : String
  notes : Option String
  deriving DecidableEq, Repr

/-- ComplianceAlert record from src/types.ts. -/
structure ComplianceAlert where
  id : String
  type : AlertType
  severity : Severity
  status : Status
  trader : Trader
  timestamp : ℚ
  description : String
  detectedBy : String
  investigationNotes : String
  timeline : List TimelineEvent
  deriving DecidableEq, Repr

/-- StockData snapshot from src/services/alphaVantage.ts as consumed by the
engine: symbol, price, volume, percent change and numeric instant. -/
structure StockData where
  symbol : String
  price : ℚ
  volume : ℚ
  changePercent : ℚ
  timestamp : ℚ
  deriving DecidableEq, Repr

/-- One intraday history point: the price/volume/timestamp record elements of
the interval-history arrays. -/
structure IntradayPoint where
  price : ℚ
  volume : ℚ
  timestamp : ℚ
  deriving DecidableEq, Repr

/-- The wall clock observed during one generation call: Date.now epoch
milliseconds and the local hour from Date.getHours. -/
structure DateLike where
  nowMillis : Nat
  hour : Nat
  deriving DecidableEq, Repr

/-- Abstraction of JavaScript decimal display formatting (toFixed and
toLocaleString); the rendered digits never matter to any claim, only that
description construction is a total deterministic function. -/
def ratText (q : ℚ) : String :=
  toString q.num ++ "/" ++ toString q.den

/-- The alertTypes array inside createAlert. -/
def alertTypesList : List AlertType :=
  [.MarketManipulation, .WashTrading, .Spoofing, .InsiderTrading, .PositionLimitBreach]

/-- The category normalization in createAlert: alertTypes.includes(type) keeps
the category, anything else becomes Market Manipulation. -/
def resolveAlertType (c : RawCategory) : AlertType :=
  match c with
  | .alertType t => if alertTypesList.contains t then t else .MarketManipulation
  | .unusualActivity => .MarketManipulation
  | .suspiciousTradingPattern => .MarketManipulation

/-- The traderNames pool inside createAlert. -/
def traderNames : List String :=
  ["James Mitchell", "Sarah Chen", "Michael Rodriguez", "Emily Johnson",
   "David Kim", "Lisa Anderson", "Robert Taylor", "Jennifer Martinez"]

/-- charCodeAt(0) of the symbol; the source would produce NaN on an empty
symbol, embedded here as 0 (symbols are nonempty in every caller). -/
def headCharCode (s : String) : Nat :=
  match s.data with
  | [] => 0
  | c :: _ => c.toNat

/-- replace(" ", ".") on the lowercased name: JavaScript replaces only the
first occurrence. -/
def replaceFirstSpace : List Char → List Char
  | [] => []
  | c :: cs => if c = ' ' then '.' :: cs else c :: replaceFirstSpace cs

/-- The trader profile built inside createAlert, a deterministic function of
the symbol. -/
def mkTrader (symbol : String) : Trader :=
  let traderIndex := headCharCode symbol % traderNames.length
  let name := traderNames.getD traderIndex ""
  { id := "TRD" ++ symbol
    name := name
    email := String.mk (replaceFirstSpace name.toLower.data) ++ "@trading.com"
    firm := "Market Participant"
    registrationDate := "2020-01-01T00:00:00.000Z" }

/-- The alert identifier template literal in createAlert. -/
def altId (millis : Nat) (symbol : String) : String :=
  "ALT" ++ toString millis ++ "-" ++ symbol

/-- createAlert from src/services/alertGenerator.ts. -/
def createAlert (rawType : RawCategory) (severity : Severity) (stockData : StockData)
    (description : String) (now : DateLike) : ComplianceAlert :=
  { id := altId now.nowMillis stockData.symbol
    type := resolveAlertType rawType
    severity := severity
    status := .New
    trader := mkTrader stockData.symbol
    timestamp := stockData.timestamp
    description := stockData.symbol ++ ": " ++ description
    detectedBy := "Real-Time Market Monitoring System"
    investigationNotes := ""
    timeline := [{ id := "timeline-" ++ toString now.nowMillis
                   timestamp := stockData.timestamp
                   action := "Alert Created"
                   user := "Automated System"
                   notes := some ("Detected from live market data - Price: $"
                     ++ ratText stockData.price ++ ", Volume: " ++ ratText stockData.volume) }] }

/-- Average volume computed per snapshot: mean of the intraday volumes, or the
snapshot volume itself when the history is empty. -/
def averageVolumeOf (intraday : List IntradayPoint) (current : StockData) : ℚ :=
  let volumes := intraday.map (fun d => d.volume)
  if volumes.length > 0 then volumes.sum / volumes.length else current.volume

/-- Rule 1, the momentum check: with at least two history points, percent
change between the last two points; fires when its absolute value exceeds 5. -/
def momentumAlerts (now : DateLike) (current : StockData)
    (intraday : List IntradayPoint) : List ComplianceAlert :=
  if intraday.length ≥ 2 then
    match intraday[intraday.length - 1]?, intraday[intraday.length - 2]? with
    | some recent, some prior =>
      let priceChangePercent := (recent.price - prior.price) / prior.price * 100
      if |priceChangePercent| > 5 then
        [createAlert (.alertType .MarketManipulation)
          (if priceChangePercent > 5 then .Critical else .High) current
          ("Significant price movement detected: " ++ ratText priceChangePercent
            ++ "% change in 15 minutes") now]
      else []
    | _, _ => []
  else []

/-- Rule 2, the volume-spike check; the averageVolume conjunct embeds the
JavaScript truthiness guard, which suppresses the rule when the average is 0. -/
def volumeAlerts (now : DateLike) (current : StockData) (averageVolume : ℚ) :
    List ComplianceAlert :=
  if averageVolume ≠ 0 ∧ current.volume > averageVolume * 2 then
    let volumeIncrease := (current.volume - averageVolume) / averageVolume * 100
    [createAlert .unusualActivity
      (if volumeIncrease > 300 then .Critical
       else if volumeIncrease > 200 then .High else .Medium) current
      ("Unusual trading volume detected: " ++ ratText volumeIncrease
        ++ "% above average") now]
  else []

/-- Rule 3, the after-hours large-trade check against the wall-clock hour. -/
def afterHoursAlerts (now : DateLike) (current : StockData) : List ComplianceAlert :=
  let isAfterHours := now.hour < 9 ∨ now.hour ≥ 16
  if isAfterHours ∧ current.volume > 1000000 then
    [createAlert .suspiciousTradingPattern .High current
      ("Large after-hours trade detected: " ++ ratText current.volume
        ++ " shares traded outside market hours") now]
  else []

/-- Rule 4, the rapid-change check; requires a previous snapshot. -/
def rapidAlerts (now : DateLike) (current : StockData)
    (previous : Option StockData) : List ComplianceAlert :=
  match previous with
  | some _ =>
    if |current.changePercent| > 3 then
      [createAlert (.alertType .MarketManipulation)
        (if |current.changePercent| > 5 then .Critical else .High) current
        ("Rapid price change: " ++ ratText current.changePercent ++ "%") now]
    else []
  | none => []

/-- The per-snapshot body of the forEach in generateAlertsFromStockData; the
four rule evaluations push in source order. -/
def processSnapshot (now : DateLike) (previousData : String → Option StockData)
    (intradayDataMap : String → Option (List IntradayPoint))
    (current : StockData) : List ComplianceAlert :=
  let previous := previousData current.symbol
  let intraday := (intradayDataMap current.symbol).getD []
  let averageVolume := averageVolumeOf intraday current
  momentumAlerts now current intraday
    ++ volumeAlerts now current averageVolume
    ++ afterHoursAlerts now current
    ++ rapidAlerts now current previous

/-- generateAlertsFromStockData from src/services/alertGenerator.ts, with the
wall clock passed explicitly. -/
def generateAlertsFromStockData (now : DateLike) (stockData : List StockData)
    (previousData : String → Option StockData)
    (intradayDataMap : String → Option (List IntradayPoint)) : List ComplianceAlert :=
  stockData.flatMap (processSnapshot now previousData intradayDataMap)

/-- Comparator key of the merge in App.tsx: sort((a, b) =>
Date(b.timestamp) - Date(a.timestamp)), i.e. a stays before b exactly when
the timestamp of b is at most the timestamp of a (newest first, stable). -/
def tsDescLE (a b : ComplianceAlert) : Bool :=
  decide (b.timestamp ≤ a.timestamp)

/-- The setAlerts merge in fetchRealData (App.tsx): drop incoming alerts whose
identifier already exists, append the rest, then stable-sort the whole
collection by timestamp descending. -/
def mergeAlerts (prev newAlerts : List ComplianceAlert) : List ComplianceAlert :=
  let existingIds := prev.map (fun a => a.id)
  let newUniqueAlerts := newAlerts.filter (fun a => !(existingIds.contains a.id))
  (prev ++ newUniqueAlerts).mergeSort tsDescLE

/-- parseFloat(x.toFixed(1)): round to one decimal place. -/
def toFixed1 (q : ℚ) : ℚ :=
  ((round (q * 10) : ℤ) : ℚ) / 10

/-- False-positive-rate metric of the metrics useMemo in the App variant that
computes processed = non-New (src/unnamed/part_004): dismissed over processed
times 100, one decimal, null when nothing has been processed. -/
def falsePositiveRate (alerts : List ComplianceAlert) : Option ℚ :=
  let processedAlerts := alerts.filter (fun a => a.status ≠ Status.New)
  let dismissedAlerts := (alerts.filter (fun a => a.status = Status.Dismissed)).length
  if processedAlerts.length > 0 then
    some (toFixed1 ((dismissedAlerts : ℚ) / (processedAlerts.length : ℚ) * 100))
  else none

/-- Average-investigation-time metric of the same metrics useMemo: over
Resolved alerts, minutes from the alert timestamp to the first timeline event
whose action is Resolved or Mark Resolved, falling back to the last timeline
event (0 for an alert with an empty timeline); the mean is rounded with
Math.round; null when there are no Resolved alerts. The reduce callback is
the named function investigationStep below. -/
def investigationStep (sum : ℚ) (alert : ComplianceAlert) : ℚ :=
  let creationTime := alert.timestamp
  match alert.timeline.find? (fun event =>
      event.action = "Resolved" ∨ event.action = "Mark Resolved") with
  | some resolutionEvent => sum + (resolutionEvent.timestamp - creationTime) / (1000 * 60)
  | none =>
    match alert.timeline.getLast? with
    | some lastEvent => sum + (lastEvent.timestamp - creationTime) / (1000 * 60)
    | none => sum

def avgInvestigationTime (alerts : List ComplianceAlert) : Option ℚ :=
  let resolvedAlerts := alerts.filter (fun a => a.status = Status.Resolved)
  if resolvedAlerts.length > 0 then
    some ((round ((resolvedAlerts.foldl investigationStep 0) /
      (resolvedAlerts.length : ℚ)) : ℤ) : ℚ)
  else none

/-- Minutes from creation to resolution of one alert, phrased the way §4.4 of
the spec reads: first Resolved or Mark Resolved timeline event, falling back
to the last timeline event (an empty timeline contributes 0). -/
def resolutionMinutes (alert : ComplianceAlert) : ℚ :=
  match alert.timeline.find? (fun event =>
      event.action = "Resolved" ∨ event.action = "Mark Resolved") with
  | some resolutionEvent => (resolutionEvent.timestamp - alert.timestamp) / (1000 * 60)
  | none =>
    match alert.timeline.getLast? with
    | some lastEvent => (lastEvent.timestamp - alert.timestamp) / (1000 * 60)
    | none => 0

/-- The actions offered by the AlertDetailModal buttons, as pairs of
destination status and action label, in button order; each button appears
exactly under the status conditions guarding it in the source. -/
def availableActions (st : Status) : List (Status × String) :=
  (if st = Status.New then [(Status.InReview, "Start Investigation")] else [])
    ++ (if st ≠ Status.Escalated ∧ st ≠ Status.Resolved ∧ st ≠ Status.Dismissed then
          [(Status.Escalated, "Escalate")] else [])
    ++ (if st ≠ Status.Resolved ∧ st ≠ Status.Dismissed then
          [(Status.Dismissed, "Dismiss")] else [])
    ++ (if st ≠ Status.Resolved ∧ st ≠ Status.Dismissed then
          [(Status.Resolved, "Mark Resolved")] else [])

/-- handleAction of AlertDetailModal composed with the onUpdate merge in
App.tsx: append one timeline event carrying the current notes, set the status
to the destination, store the notes. -/
def handleAction (alert : ComplianceAlert) (newStatus : Status) (actionName : String)
    (notes : String) (now : DateLike) : ComplianceAlert :=
  let timelineEvent : TimelineEvent :=
    { id := alert.id ++ "-" ++ toString now.nowMillis
      timestamp := (now.nowMillis : ℚ)
      action := actionName
      user := "Current User"
      notes := if notes = "" then none else some notes }
  { alert with
      status := newStatus
      investigationNotes := notes
      timeline := alert.timeline ++ [timelineEvent] }

/-- One user-visible workflow transition: an action actually offered by the
modal for the current status, applied through handleAction. -/
inductive WorkflowStep : ComplianceAlert → ComplianceAlert → Prop
  | mk (a : ComplianceAlert) (dest : Status) (label : String) (notes : String)
      (now : DateLike) (h : (dest, label) ∈ availableActions a.status) :
      WorkflowStep a (handleAction a dest label notes now)

/-- Zero or more offered workflow transitions. -/
inductive WorkflowReaches : ComplianceAlert → ComplianceAlert → Prop
  | refl (a : ComplianceAlert) : WorkflowReaches a a
  | tail {a b c : ComplianceAlert} :
      WorkflowReaches a b → WorkflowStep b c → WorkflowReaches a c

/-- The status named by each action label occurring in the system. -/
def statusOfAction (action : String) : Option Status :=
  if action = "Alert Created" then some Status.New
  else if action = "Start Investigation" then some Status.InReview
  else if action = "Escalate" then some Status.Escalated
  else if action = "Dismiss" then some Status.Dismissed
  else if action = "Mark Resolved" then some Status.Resolved
  else none

/-- An alert status agrees with the action label of its most recent timeline
event. -/
def timelineConsistent (a : ComplianceAlert) : Prop :=
  ∀ e : TimelineEvent, a.timeline.getLast? = some e →
    statusOfAction e.action = some a.status

lemma getElem_pair_last (rest : List IntradayPoint) (prior latest : IntradayPoint) :
    (rest ++ [prior, latest])[(rest ++ [prior, latest]).length - 1]? = some latest := by
  rw [List.getElem?_append_right (by simp)]
  have h : (rest ++ [prior, latest]).length - 1 - rest.length = 1 := by simp
  rw [h]
  rfl

lemma getElem_pair_prior (rest : List IntradayPoint) (prior latest : IntradayPoint) :
    (rest ++ [prior, latest])[(rest ++ [prior, latest]).length - 2]? = some prior := by
  rw [List.getElem?_append_right (by simp)]
  have h : (rest ++ [prior, latest]).length - 2 - rest.length = 0 := by simp
  rw [h]
  rfl

lemma momentumAlerts_eval (now : DateLike) (current : StockData)
    (rest : List IntradayPoint) (prior latest : IntradayPoint) :
    momentumAlerts now current (rest ++ [prior, latest]) =
      (if |(latest.price - prior.price) / prior.price * 100| > 5 then
        [createAlert (.alertType .MarketManipulation)
          (if (latest.price - prior.price) / prior.price * 100 > 5 then .Critical else .High)
          current
          ("Significant price movement detected: "
            ++ ratText ((latest.price - prior.price) / prior.price * 100)
            ++ "% change in 15 minutes") now]
      else []) := by
  rw [momentumAlerts, if_pos (by simp), getElem_pair_last, getElem_pair_prior]

/-- C1: with at least two history points, the momentum rule fires exactly when
the percent change between the last two points exceeds 5 in absolute value,
and the alert is Critical exactly when the signed change exceeds 5 (so it is
High for any large negative change). The nonzero prior price rules out the
degenerate division the source would render as Infinity or NaN. -/
theorem momentum_rule (now : DateLike) (current : StockData)
    (rest : List IntradayPoint) (prior latest : IntradayPoint)
    (_hp : prior.price ≠ 0) :
    (momentumAlerts now current (rest ++ [prior, latest]) ≠ [] ↔
      |(latest.price - prior.price) / prior.price * 100| > 5) ∧
    ∀ a ∈ momentumAlerts now current (rest ++ [prior, latest]),
      (a.severity = Severity.Critical ↔
        (latest.price - prior.price) / prior.price * 100 > 5) ∧
      (a.severity = Severity.High ↔
        ¬ (latest.price - prior.price) / prior.price * 100 > 5) := by
  rw [momentumAlerts_eval]
  by_cases hfire : |(latest.price - prior.price) / prior.price * 100| > 5
  · refine ⟨by simp [hfire], ?_⟩
    intro a ha
    rw [if_pos hfire] at ha
    simp only [List.mem_singleton] at ha
    subst ha
    by_cases hcrit : (latest.price - prior.price) / prior.price * 100 > 5
    · simp [createAlert, hcrit]
    · simp [createAlert, hcrit]
  · refine ⟨by simp [hfire], ?_⟩
    intro a ha
    rw [if_neg hfire] at ha
    simp at ha

/-- Witness for C1: a -8 percent move (price 100 then 92) fires the momentum
rule and classifies as High, not Critical. -/
theorem momentum_rule_witness :
    ((⟨100, 0, 0⟩ : IntradayPoint).price ≠ 0) ∧
    ((momentumAlerts ⟨0, 10⟩ ⟨"TSLA", 92, 0, 0, 0⟩
        ([] ++ [⟨100, 0, 0⟩, ⟨92, 0, 0⟩]) ≠ [] ↔
      |(((⟨92, 0, 0⟩ : IntradayPoint).price - (⟨100, 0, 0⟩ : IntradayPoint).price) /
          (⟨100, 0, 0⟩ : IntradayPoint).price * 100)| > 5) ∧
    ∀ a ∈ momentumAlerts ⟨0, 10⟩ ⟨"TSLA", 92, 0, 0, 0⟩
        ([] ++ [⟨100, 0, 0⟩, ⟨92, 0, 0⟩]),
      (a.severity = Severity.Critical ↔
        ((⟨92, 0, 0⟩ : IntradayPoint).price - (⟨100, 0, 0⟩ : IntradayPoint).price) /
          (⟨100, 0, 0⟩ : IntradayPoint).price * 100 > 5) ∧
      (a.severity = Severity.High ↔
        ¬ ((⟨92, 0, 0⟩ : IntradayPoint).price - (⟨100, 0, 0⟩ : IntradayPoint).price) /
          (⟨100, 0, 0⟩ : IntradayPoint).price * 100 > 5)) :=
  ⟨by norm_num, momentum_rule ⟨0, 10⟩ ⟨"TSLA", 92, 0, 0, 0⟩ [] ⟨100, 0, 0⟩ ⟨92, 0, 0⟩
    (by norm_num)⟩

/-- C2 counterexample: a history point with volume 0 makes the average 0, the
snapshot volume 5 exceeds twice that average, yet no Volume-spike alert is
emitted, because the JavaScript truthiness guard on averageVolume suppresses
the rule. -/
theorem volume_rule_counterexample :
    averageVolumeOf [⟨1, 0, 0⟩] ⟨"AAPL", 1, 5, 0, 0⟩ = 0 ∧
    (⟨"AAPL", 1, 5, 0, 0⟩ : StockData).volume >
      2 * averageVolumeOf [⟨1, 0, 0⟩] ⟨"AAPL", 1, 5, 0, 0⟩ ∧
    volumeAlerts ⟨0, 10⟩ ⟨"AAPL", 1, 5, 0, 0⟩
      (averageVolumeOf [⟨1, 0, 0⟩] ⟨"AAPL", 1, 5, 0, 0⟩) = [] := by
  refine ⟨by norm_num [averageVolumeOf], by norm_num [averageVolumeOf], ?_⟩
  norm_num [averageVolumeOf, volumeAlerts]

/-- C2 amended: provided the average volume is nonzero, the volume-spike rule
emits exactly one alert when the snapshot volume strictly exceeds twice the
average and none otherwise, and the severity follows the 300/200 thresholds
on the percent increase. -/
theorem volume_rule (now : DateLike) (current : StockData)
    (intraday : List IntradayPoint)
    (havg : averageVolumeOf intraday current ≠ 0) :
    (volumeAlerts now current (averageVolumeOf intraday current) = [] ↔
      ¬ current.volume > averageVolumeOf intraday current * 2) ∧
    (current.volume > averageVolumeOf intraday current * 2 →
      (volumeAlerts now current (averageVolumeOf intraday current)).map
          (fun a => a.severity) =
        [if (current.volume - averageVolumeOf intraday current) /
              averageVolumeOf intraday current * 100 > 300 then Severity.Critical
         else if (current.volume - averageVolumeOf intraday current) /
              averageVolumeOf intraday current * 100 > 200 then Severity.High
         else Severity.Medium]) := by
  by_cases hfire : current.volume > averageVolumeOf intraday current * 2
  · constructor
    · rw [volumeAlerts, if_pos ⟨havg, hfire⟩]
      simp [hfire]
    · intro _
      rw [volumeAlerts, if_pos ⟨havg, hfire⟩]
      simp [createAlert]
  · constructor
    · rw [volumeAlerts, if_neg (by tauto)]
      simp [hfire]
    · intro h
      exact absurd h hfire

/-- Witness for C2, the end-to-end example of the spec: TSLA volume 3,000,000
against an average of 900,000 is a 233 percent increase, producing exactly one
Volume-spike alert of severity High, not Critical. -/
theorem volume_rule_witness :
    averageVolumeOf [⟨0, 900000, 0⟩] ⟨"TSLA", 0, 3000000, 0, 0⟩ ≠ 0 ∧
    (⟨"TSLA", 0, 3000000, 0, 0⟩ : StockData).volume >
      averageVolumeOf [⟨0, 900000, 0⟩] ⟨"TSLA", 0, 3000000, 0, 0⟩ * 2 ∧
    (volumeAlerts ⟨0, 10⟩ ⟨"TSLA", 0, 3000000, 0, 0⟩
        (averageVolumeOf [⟨0, 900000, 0⟩] ⟨"TSLA", 0, 3000000, 0, 0⟩)).map
      (fun a => a.severity) = [Severity.High] := by
  refine ⟨by norm_num [averageVolumeOf], by norm_num [averageVolumeOf], ?_⟩
  have h := (volume_rule ⟨0, 10⟩ ⟨"TSLA", 0, 3000000, 0, 0⟩ [⟨0, 900000, 0⟩]
    (by norm_num [averageVolumeOf])).2 (by norm_num [averageVolumeOf])
  rw [h]
  norm_num [averageVolumeOf]

lemma averageVolumeOf_nil (current : StockData) :
    averageVolumeOf [] current = current.volume := rfl

/-- C3: absent optional inputs only suppress rules (the embedding itself is a
total function, so no input makes the engine fail): fewer than two history
points silence the momentum rule, a missing previous snapshot silences the
rapid-change rule for any changePercent, the self-volume fallback makes the
volume rule unable to fire on an empty history, and hence a symbol with no
history and no previous snapshot can only produce the after-hours alert. -/
theorem engine_missing_inputs (now : DateLike)
    (prevMap : String → Option StockData)
    (intrMap : String → Option (List IntradayPoint)) (current : StockData) :
    (∀ hist : List IntradayPoint, hist.length < 2 →
      momentumAlerts now current hist = []) ∧
    rapidAlerts now current none = [] ∧
    (0 ≤ current.volume →
      volumeAlerts now current (averageVolumeOf [] current) = []) ∧
    (prevMap current.symbol = none → (intrMap current.symbol).getD [] = [] →
      0 ≤ current.volume →
      processSnapshot now prevMap intrMap current = afterHoursAlerts now current) := by
  have hmom : ∀ hist : List IntradayPoint, hist.length < 2 →
      momentumAlerts now current hist = [] := by
    intro hist hlen
    rw [momentumAlerts, if_neg (by omega)]
  have hvol : 0 ≤ current.volume →
      volumeAlerts now current (averageVolumeOf [] current) = [] := by
    intro hnn
    rw [averageVolumeOf_nil, volumeAlerts, if_neg]
    rintro ⟨-, h2⟩
    nlinarith
  refine ⟨hmom, rfl, hvol, ?_⟩
  intro hprev hintr hnn
  rw [processSnapshot, hprev, hintr]
  rw [hmom [] (by simp), hvol hnn]
  simp [rapidAlerts]

/-- Witness for C3: with no previous snapshot and no history, a snapshot with
changePercent 99 and volume 2,000,000 at hour 8 produces only the after-hours
alert. -/
theorem engine_missing_inputs_witness :
    ((fun _ : String => (none : Option StockData)) "AAPL" = none ∧
      (((fun _ : String => (none : Option (List IntradayPoint))) "AAPL").getD [] = []) ∧
      (0 : ℚ) ≤ (⟨"AAPL", 1, 2000000, 99, 0⟩ : StockData).volume) ∧
    processSnapshot ⟨0, 8⟩ (fun _ => none) (fun _ => none) ⟨"AAPL", 1, 2000000, 99, 0⟩ =
      afterHoursAlerts ⟨0, 8⟩ ⟨"AAPL", 1, 2000000, 99, 0⟩ :=
  ⟨⟨rfl, rfl, by norm_num⟩,
    (engine_missing_inputs ⟨0, 8⟩ (fun _ => none) (fun _ => none)
      ⟨"AAPL", 1, 2000000, 99, 0⟩).2.2.2 rfl rfl (by norm_num)⟩

lemma mem_momentumAlerts {a : ComplianceAlert} {now : DateLike} {current : StockData}
    {intraday : List IntradayPoint} (h : a ∈ momentumAlerts now current intraday) :
    ∃ sev desc, a = createAlert (.alertType .MarketManipulation) sev current desc now := by
  rw [momentumAlerts] at h
  split at h
  · split at h
    · dsimp only at h
      split at h
      · exact ⟨_, _, (List.mem_singleton.mp h)⟩
      · simp at h
    · simp at h
  · simp at h

lemma mem_volumeAlerts {a : ComplianceAlert} {now : DateLike} {current : StockData}
    {averageVolume : ℚ} (h : a ∈ volumeAlerts now current averageVolume) :
    ∃ sev desc, a = createAlert .unusualActivity sev current desc now := by
  rw [volumeAlerts] at h
  split at h
  · exact ⟨_, _, (List.mem_singleton.mp h)⟩
  · simp at h

lemma mem_afterHoursAlerts {a : ComplianceAlert} {now : DateLike} {current : StockData}
    (h : a ∈ afterHoursAlerts now current) :
    ∃ desc, a = createAlert .suspiciousTradingPattern .High current desc now := by
  rw [afterHoursAlerts] at h
  split at h
  · exact ⟨_, (List.mem_singleton.mp h)⟩
  · simp at h

lemma mem_rapidAlerts {a : ComplianceAlert} {now : DateLike} {current : StockData}
    {previous : Option StockData} (h : a ∈ rapidAlerts now current previous) :
    ∃ sev desc, a = createAlert (.alertType .MarketManipulation) sev current desc now := by
  rw [rapidAlerts.eq_def] at h
  split at h
  · split at h
    · exact ⟨_, _, (List.mem_singleton.mp h)⟩
    · simp at h
  · simp at h

lemma mem_processSnapshot {a : ComplianceAlert} {now : DateLike}
    {p : String → Option StockData} {i : String → Option (List IntradayPoint)}
    {current : StockData} (h : a ∈ processSnapshot now p i current) :
    ∃ raw sev desc, a = createAlert raw sev current desc now := by
  rw [processSnapshot] at h
  simp only [List.mem_append] at h
  rcases h with ((hm | hv) | hh) | hr
  · obtain ⟨sev, desc, rfl⟩ := mem_momentumAlerts hm
    exact ⟨_, _, _, rfl⟩
  · obtain ⟨sev, desc, rfl⟩ := mem_volumeAlerts hv
    exact ⟨_, _, _, rfl⟩
  · obtain ⟨desc, rfl⟩ := mem_afterHoursAlerts hh
    exact ⟨_, _, _, rfl⟩
  · obtain ⟨sev, desc, rfl⟩ := mem_rapidAlerts hr
    exact ⟨_, _, _, rfl⟩

lemma mem_generate {a : ComplianceAlert} {now : DateLike} {data : List StockData}
    {p : String → Option StockData} {i : String → Option (List IntradayPoint)}
    (h : a ∈ generateAlertsFromStockData now data p i) :
    ∃ current ∈ data, ∃ raw sev desc, a = createAlert raw sev current desc now := by
  rw [generateAlertsFromStockData] at h
  simp only [List.mem_flatMap] at h
  obtain ⟨current, hc, hmem⟩ := h
  exact ⟨current, hc, mem_processSnapshot hmem⟩

lemma contains_resolveAlertType (raw : RawCategory) :
    alertTypesList.contains (resolveAlertType raw) = true := by
  cases raw with
  | alertType t => cases t <;> decide
  | unusualActivity => decide
  | suspiciousTradingPattern => decide

/-- C4: the non-taxonomy categories of rules 2 and 3 are remapped to Market
Manipulation at construction time, and every alert the engine emits carries a
taxonomy type, status New, the trader profile synthesized from its snapshot
symbol, and a one-event timeline created by the Automated System. -/
theorem alert_construction (now : DateLike) (data : List StockData)
    (p : String → Option StockData) (i : String → Option (List IntradayPoint)) :
    (resolveAlertType .unusualActivity = .MarketManipulation ∧
      resolveAlertType .suspiciousTradingPattern = .MarketManipulation) ∧
    ∀ a ∈ generateAlertsFromStockData now data p i,
      alertTypesList.contains a.type = true ∧
      a.status = Status.New ∧
      (∃ s ∈ data, a.trader = mkTrader s.symbol) ∧
      a.timeline.length = 1 ∧
      ∀ e ∈ a.timeline, e.action = "Alert Created" ∧ e.user = "Automated System" := by
  refine ⟨⟨rfl, rfl⟩, ?_⟩
  intro a ha
  obtain ⟨current, hc, raw, sev, desc, rfl⟩ := mem_generate ha
  refine ⟨contains_resolveAlertType raw, rfl, ⟨current, hc, rfl⟩, rfl, ?_⟩
  intro e he
  simp only [createAlert, List.mem_singleton] at he
  subst he
  exact ⟨rfl, rfl⟩

/-- Witness for C4: the after-hours alert generated at hour 8 for a
2,000,000-share AAPL snapshot satisfies every construction property. -/
theorem alert_construction_witness :
    createAlert .suspiciousTradingPattern .High ⟨"AAPL", 1, 2000000, 0, 0⟩
        ("Large after-hours trade detected: " ++ ratText 2000000
          ++ " shares traded outside market hours") ⟨0, 8⟩ ∈
      generateAlertsFromStockData ⟨0, 8⟩ [⟨"AAPL", 1, 2000000, 0, 0⟩]
        (fun _ => none) (fun _ => none) ∧
    alertTypesList.contains
      (createAlert .suspiciousTradingPattern .High ⟨"AAPL", 1, 2000000, 0, 0⟩
        ("Large after-hours trade detected: " ++ ratText 2000000
          ++ " shares traded outside market hours") ⟨0, 8⟩).type = true ∧
    (createAlert .suspiciousTradingPattern .High ⟨"AAPL", 1, 2000000, 0, 0⟩
        ("Large after-hours trade detected: " ++ ratText 2000000
          ++ " shares traded outside market hours") ⟨0, 8⟩).status = Status.New ∧
    (∃ s ∈ [(⟨"AAPL", 1, 2000000, 0, 0⟩ : StockData)],
      (createAlert .suspiciousTradingPattern .High ⟨"AAPL", 1, 2000000, 0, 0⟩
        ("Large after-hours trade detected: " ++ ratText 2000000
          ++ " shares traded outside market hours") ⟨0, 8⟩).trader = mkTrader s.symbol) ∧
    (createAlert .suspiciousTradingPattern .High ⟨"AAPL", 1, 2000000, 0, 0⟩
        ("Large after-hours trade detected: " ++ ratText 2000000
          ++ " shares traded outside market hours") ⟨0, 8⟩).timeline.length = 1 ∧
    ∀ e ∈ (createAlert .suspiciousTradingPattern .High ⟨"AAPL", 1, 2000000, 0, 0⟩
        ("Large after-hours trade detected: " ++ ratText 2000000
          ++ " shares traded outside market hours") ⟨0, 8⟩).timeline,
      e.action = "Alert Created" ∧ e.user = "Automated System" := by
  have hm : createAlert .suspiciousTradingPattern .High ⟨"AAPL", 1, 2000000, 0, 0⟩
      ("Large after-hours trade detected: " ++ ratText 2000000
        ++ " shares traded outside market hours") ⟨0, 8⟩ ∈
      generateAlertsFromStockData ⟨0, 8⟩ [⟨"AAPL", 1, 2000000, 0, 0⟩]
        (fun _ => none) (fun _ => none) := by
    rw [generateAlertsFromStockData]
    simp only [List.flatMap_cons, List.flatMap_nil, List.append_nil]
    rw [processSnapshot]
    norm_num [momentumAlerts, volumeAlerts, afterHoursAlerts, rapidAlerts, averageVolumeOf]
  exact ⟨hm, (alert_construction ⟨0, 8⟩ [⟨"AAPL", 1, 2000000, 0, 0⟩]
    (fun _ => none) (fun _ => none)).2 _ hm⟩

lemma string_append_left_cancel {p s1 s2 : String} (h : p ++ s1 = p ++ s2) :
    s1 = s2 := by
  have h2 : (p ++ s1).data = (p ++ s2).data := congrArg String.data h
  simp only [String.data_append] at h2
  have h3 := List.append_cancel_left h2
  cases s1
  cases s2
  simp only at h3
  rw [h3]

/-- C10: every emitted alert identifier is ALT, the generation-time epoch
milliseconds, a dash, and the snapshot symbol; at a fixed generation instant
the identifier determines the symbol and conversely, so same-symbol alerts of
one call share an identifier and distinct-symbol alerts never collide. -/
theorem alert_id_spec (now : DateLike) (data : List StockData)
    (p : String → Option StockData) (i : String → Option (List IntradayPoint)) :
    (∀ a ∈ generateAlertsFromStockData now data p i,
      ∃ s ∈ data, a.id = altId now.nowMillis s.symbol) ∧
    (∀ (t : Nat) (s1 s2 : String), altId t s1 = altId t s2 ↔ s1 = s2) := by
  constructor
  · intro a ha
    obtain ⟨current, hc, raw, sev, desc, rfl⟩ := mem_generate ha
    exact ⟨current, hc, rfl⟩
  · intro t s1 s2
    constructor
    · intro h
      exact string_append_left_cancel h
    · intro h
      rw [h]

/-- Witness for C10: the alert of the concrete hour-8 call carries identifier
ALT0-AAPL, and at a fixed instant identifiers collide exactly when the symbols
coincide. -/
theorem alert_id_spec_witness :
    (createAlert .suspiciousTradingPattern .High ⟨"AAPL", 1, 2000000, 0, 0⟩
        ("Large after-hours trade detected: " ++ ratText 2000000
          ++ " shares traded outside market hours") ⟨0, 8⟩ ∈
      generateAlertsFromStockData ⟨0, 8⟩ [⟨"AAPL", 1, 2000000, 0, 0⟩]
        (fun _ => none) (fun _ => none)) ∧
    (∃ s ∈ [(⟨"AAPL", 1, 2000000, 0, 0⟩ : StockData)],
      (createAlert .suspiciousTradingPattern .High ⟨"AAPL", 1, 2000000, 0, 0⟩
        ("Large after-hours trade detected: " ++ ratText 2000000
          ++ " shares traded outside market hours") ⟨0, 8⟩).id =
        altId (DateLike.mk 0 8).nowMillis s.symbol) ∧
    (altId 0 "AAPL" = altId 0 "TSLA" ↔ ("AAPL" : String) = "TSLA") := by
  have hm : createAlert .suspiciousTradingPattern .High ⟨"AAPL", 1, 2000000, 0, 0⟩
      ("Large after-hours trade detected: " ++ ratText 2000000
        ++ " shares traded outside market hours") ⟨0, 8⟩ ∈
      generateAlertsFromStockData ⟨0, 8⟩ [⟨"AAPL", 1, 2000000, 0, 0⟩]
        (fun _ => none) (fun _ => none) := by
    rw [generateAlertsFromStockData]
    simp only [List.flatMap_cons, List.flatMap_nil, List.append_nil]
    rw [processSnapshot]
    norm_num [momentumAlerts, volumeAlerts, afterHoursAlerts, rapidAlerts, averageVolumeOf]
  have h := alert_id_spec ⟨0, 8⟩ [⟨"AAPL", 1, 2000000, 0, 0⟩]
    (fun _ => none) (fun _ => none)
  exact ⟨hm, h.1 _ hm, h.2 0 "AAPL" "TSLA"⟩

/-- C5 counterexample: identical snapshots, previous-snapshot map and history
map, but a different wall-clock hour (8 versus 10), give different outputs:
the after-hours rule fires in the first call only. The engine therefore does
depend on wall-clock time, not on its three arguments alone. -/
theorem engine_time_dependence_counterexample :
    generateAlertsFromStockData ⟨0, 8⟩ [⟨"AAPL", 1, 2000000, 0, 0⟩]
        (fun _ => none) (fun _ => none) ≠
      generateAlertsFromStockData ⟨0, 10⟩ [⟨"AAPL", 1, 2000000, 0, 0⟩]
        (fun _ => none) (fun _ => none) := by
  have h1 : generateAlertsFromStockData ⟨0, 8⟩ [⟨"AAPL", 1, 2000000, 0, 0⟩]
      (fun _ => none) (fun _ => none) ≠ [] := by
    rw [generateAlertsFromStockData]
    simp only [List.flatMap_cons, List.flatMap_nil, List.append_nil]
    rw [processSnapshot]
    norm_num [momentumAlerts, volumeAlerts, afterHoursAlerts, rapidAlerts, averageVolumeOf]
  have h2 : generateAlertsFromStockData ⟨0, 10⟩ [⟨"AAPL", 1, 2000000, 0, 0⟩]
      (fun _ => none) (fun _ => none) = [] := by
    rw [generateAlertsFromStockData]
    simp only [List.flatMap_cons, List.flatMap_nil, List.append_nil]
    rw [processSnapshot]
    norm_num [momentumAlerts, volumeAlerts, afterHoursAlerts, rapidAlerts, averageVolumeOf]
  intro h
  rw [h, h2] at h1
  exact h1 rfl

/-- C5 amended: the engine is a deterministic function of its three arguments
together with the generation-time clock (epoch milliseconds and local hour):
two calls agreeing on all of these produce identical alert sequences; there is
no other hidden state and no I/O in the embedding. -/
theorem engine_deterministic (c1 c2 : DateLike) (data : List StockData)
    (p : String → Option StockData) (i : String → Option (List IntradayPoint))
    (hm : c1.nowMillis = c2.nowMillis) (hh : c1.hour = c2.hour) :
    generateAlertsFromStockData c1 data p i = generateAlertsFromStockData c2 data p i := by
  cases c1 with
  | mk m1 h1 =>
    cases c2 with
    | mk m2 h2 =>
      dsimp only at hm hh
      subst hm
      subst hh
      rfl

/-- Witness for C5: two clocks agreeing on milliseconds and hour yield equal
outputs on a concrete call. -/
theorem engine_deterministic_witness :
    ((DateLike.mk 0 8).nowMillis = (DateLike.mk 0 8).nowMillis ∧
      (DateLike.mk 0 8).hour = (DateLike.mk 0 8).hour) ∧
    generateAlertsFromStockData ⟨0, 8⟩ [⟨"AAPL", 1, 2000000, 0, 0⟩]
        (fun _ => none) (fun _ => none) =
      generateAlertsFromStockData ⟨0, 8⟩ [⟨"AAPL", 1, 2000000, 0, 0⟩]
        (fun _ => none) (fun _ => none) :=
  ⟨⟨rfl, rfl⟩, engine_deterministic ⟨0, 8⟩ ⟨0, 8⟩ [⟨"AAPL", 1, 2000000, 0, 0⟩]
    (fun _ => none) (fun _ => none) rfl rfl⟩

/-- Test fixture: a minimal alert record with the given identifier, numeric
timestamp, status and timeline. -/
def sampleAlert (id : String) (ts : ℚ) (st : Status)
    (timeline : List TimelineEvent) : ComplianceAlert :=
  { id := id
    type := .MarketManipulation
    severity := .High
    status := st
    trader := mkTrader "AAPL"
    timestamp := ts
    description := ""
    detectedBy := ""
    investigationNotes := ""
    timeline := timeline }

/-- C7: the false-positive rate is dismissed over processed times 100, one
decimal, with processed the count of non-New alerts, and it is null rather
than zero whenever nothing has been processed; in particular any non-empty
all-New collection yields null. Verified against the metrics useMemo of the
App variant in src/unnamed/part_004 (the version §4.4 of the spec selects). -/
theorem false_positive_rate_spec (alerts : List ComplianceAlert) :
    ((alerts.filter (fun a => a.status ≠ Status.New)).length = 0 →
      falsePositiveRate alerts = none) ∧
    ((alerts.filter (fun a => a.status ≠ Status.New)).length ≠ 0 →
      falsePositiveRate alerts = some (toFixed1
        (((alerts.filter (fun a => a.status = Status.Dismissed)).length : ℚ) /
          ((alerts.filter (fun a => a.status ≠ Status.New)).length : ℚ) * 100))) ∧
    (alerts ≠ [] → (∀ a ∈ alerts, a.status = Status.New) →
      falsePositiveRate alerts = none) := by
  refine ⟨?_, ?_, ?_⟩
  · intro h0
    rw [falsePositiveRate, if_neg (by omega)]
  · intro h0
    rw [falsePositiveRate, if_pos (by omega)]
  · intro _ hall
    have hfil : alerts.filter (fun a => a.status ≠ Status.New) = [] := by
      simp only [List.filter_eq_nil_iff]
      intro a ha
      simp [hall a ha]
    rw [falsePositiveRate, hfil]
    simp

/-- Witness for C7: a one-element collection whose alert is still New has a
null false-positive rate. -/
theorem false_positive_rate_witness :
    (([sampleAlert "ALT1-AAPL" 0 Status.New []] : List ComplianceAlert) ≠ [] ∧
      ∀ a ∈ [sampleAlert "ALT1-AAPL" 0 Status.New []], a.status = Status.New) ∧
    falsePositiveRate [sampleAlert "ALT1-AAPL" 0 Status.New []] = none :=
  ⟨⟨by simp, by intro a ha; simp only [List.mem_singleton] at ha; rw [ha]; rfl⟩,
    (false_positive_rate_spec [sampleAlert "ALT1-AAPL" 0 Status.New []]).2.2
      (by simp)
      (by intro a ha; simp only [List.mem_singleton] at ha; rw [ha]; rfl)⟩

lemma investigationStep_eq (sum : ℚ) (alert : ComplianceAlert) :
    investigationStep sum alert = sum + resolutionMinutes alert := by
  rw [investigationStep, resolutionMinutes.eq_def]
  split
  · rfl
  · split
    · rfl
    · simp

lemma foldl_investigationStep (l : List ComplianceAlert) (init : ℚ) :
    l.foldl investigationStep init = init + (l.map resolutionMinutes).sum := by
  induction l generalizing init with
  | nil => simp
  | cons hd tl ih =>
    rw [List.foldl_cons, List.map_cons, List.sum_cons, ih, investigationStep_eq]
    ring

/-- C8 counterexample: a single Resolved alert whose Mark Resolved event sits
45.5 minutes after creation has mean investigation time 91/2 minutes, but the
metric reports 46 because the source applies Math.round to the mean; the
metric therefore does not equal the mean in general. -/
theorem avg_investigation_time_counterexample :
    resolutionMinutes (sampleAlert "ALT1-AAPL" 0 Status.Resolved
        [⟨"e1", 2730000, "Mark Resolved", "Current User", none⟩]) = 91 / 2 ∧
    avgInvestigationTime [sampleAlert "ALT1-AAPL" 0 Status.Resolved
        [⟨"e1", 2730000, "Mark Resolved", "Current User", none⟩]] = some 46 ∧
    ((46 : ℚ) ≠ 91 / 2) := by
  refine ⟨?_, ?_, by norm_num⟩
  · rw [resolutionMinutes.eq_def]
    norm_num [sampleAlert, List.find?]
  · rw [avgInvestigationTime]
    rw [if_pos (by simp [sampleAlert])]
    simp only [List.filter]
    norm_num [sampleAlert, List.foldl, investigationStep, List.find?, round_eq]

/-- C8 amended: the metric is null when there are no Resolved alerts, and
otherwise equals the mean over Resolved alerts of the minutes from creation
to the first Resolved or Mark Resolved timeline event (falling back to the
last event), rounded to the nearest minute by Math.round. -/
theorem avg_investigation_time_spec (alerts : List ComplianceAlert) :
    (alerts.filter (fun a => a.status = Status.Resolved) = [] →
      avgInvestigationTime alerts = none) ∧
    (alerts.filter (fun a => a.status = Status.Resolved) ≠ [] →
      avgInvestigationTime alerts = some
        ((round (((alerts.filter (fun a => a.status = Status.Resolved)).map
            resolutionMinutes).sum /
          ((alerts.filter (fun a => a.status = Status.Resolved)).length : ℚ)) : ℤ) : ℚ)) := by
  constructor
  · intro h0
    rw [avgInvestigationTime, h0]
    simp
  · intro h0
    rw [avgInvestigationTime, if_pos (by
      simpa [List.length_pos] using h0), foldl_investigationStep]
    rw [zero_add]

/-- Witness for C8, the example of the spec: one Resolved alert whose Mark
Resolved event is 45 minutes after creation gives an average investigation
time of exactly 45. -/
theorem avg_investigation_time_witness :
    ([sampleAlert "ALT1-AAPL" 0 Status.Resolved
        [⟨"e1", 2700000, "Mark Resolved", "Current User", none⟩]].filter
      (fun a => a.status = Status.Resolved) ≠ []) ∧
    avgInvestigationTime [sampleAlert "ALT1-AAPL" 0 Status.Resolved
        [⟨"e1", 2700000, "Mark Resolved", "Current User", none⟩]] = some 45 := by
  refine ⟨by simp [sampleAlert], ?_⟩
  have h := (avg_investigation_time_spec [sampleAlert "ALT1-AAPL" 0 Status.Resolved
      [⟨"e1", 2700000, "Mark Resolved", "Current User", none⟩]]).2
    (by simp [sampleAlert])
  rw [h]
  simp only [List.filter]
  norm_num [sampleAlert, resolutionMinutes.eq_def, List.find?, round_eq]

lemma offered_action_status (st : Status) :
    ∀ p ∈ availableActions st, statusOfAction p.2 = some p.1 := by
  cases st <;> decide

lemma workflow_step_terminal {b c : ComplianceAlert} (h : WorkflowStep b c)
    (hterm : b.status = Status.Dismissed ∨ b.status = Status.Resolved) : False := by
  cases h with
  | mk dest label notes now hmem =>
    rcases hterm with ht | ht <;> rw [ht] at hmem <;> simp [availableActions] at hmem

/-- C9: Dismissed and Resolved offer no actions and no sequence of offered
transitions leaves them, Start Investigation is offered only from New, every
offered transition sets the destination status and appends exactly one
timeline event labelled by the action and carrying the current notes, the
label of that event names the destination status (so reachable alerts stay
consistent with their most recent timeline event), and earlier timeline
entries survive unchanged as a prefix. -/
theorem workflow_state_machine :
    (availableActions Status.Dismissed = [] ∧ availableActions Status.Resolved = []) ∧
    (∀ st : Status, ∀ p ∈ availableActions st,
      p.2 = "Start Investigation" → st = Status.New) ∧
    (∀ (a : ComplianceAlert) (dest : Status) (label notes : String) (now : DateLike),
      (dest, label) ∈ availableActions a.status →
      (handleAction a dest label notes now).status = dest ∧
      (∃ e, (handleAction a dest label notes now).timeline = a.timeline ++ [e] ∧
        e.action = label ∧ e.notes = (if notes = "" then none else some notes)) ∧
      statusOfAction label = some dest) ∧
    (∀ a b : ComplianceAlert, WorkflowReaches a b →
      (a.status = Status.Dismissed ∨ a.status = Status.Resolved) → b = a) ∧
    (∀ (raw : RawCategory) (sev : Severity) (s : StockData) (desc : String)
      (now : DateLike), timelineConsistent (createAlert raw sev s desc now)) ∧
    (∀ a b : ComplianceAlert, WorkflowReaches a b →
      timelineConsistent a → timelineConsistent b) ∧
    (∀ a b : ComplianceAlert, WorkflowReaches a b →
      ∃ added, b.timeline = a.timeline ++ added) := by
  refine ⟨⟨rfl, rfl⟩, ?_, ?_, ?_, ?_, ?_, ?_⟩
  · intro st
    cases st <;> decide
  · intro a dest label notes now hmem
    refine ⟨rfl, ⟨_, rfl, rfl, rfl⟩, ?_⟩
    exact offered_action_status a.status (dest, label) hmem
  · intro a b h hterm
    induction h with
    | refl => rfl
    | tail hab hbc ih =>
      subst ih
      exact absurd hterm (fun ht => workflow_step_terminal hbc ht)
  · intro raw sev s desc now e he
    simp only [createAlert, List.getLast?_singleton, Option.some_inj] at he
    subst he
    rfl
  · intro a b h hc
    induction h with
    | refl => exact hc
    | tail hab hbc ih =>
      have hcons := ih
      cases hbc with
      | mk dest label notes now hmem =>
        intro e he
        simp only [handleAction, List.getLast?_concat, Option.some_inj] at he
        subst he
        simp only [handleAction]
        exact offered_action_status _ (dest, label) hmem
  · intro a b h
    induction h with
    | refl => exact ⟨[], by simp⟩
    | tail hab hbc ih =>
      obtain ⟨added, hadd⟩ := ih
      cases hbc with
      | mk dest label notes now hmem =>
        exact ⟨_, by rw [handleAction]; dsimp only; rw [hadd, List.append_assoc]⟩

/-- Witness for C9: starting the investigation of a New alert is offered, sets
the status to In Review, and appends the single Start Investigation event. -/
theorem workflow_state_machine_witness :
    ((Status.InReview, "Start Investigation") ∈
      availableActions (sampleAlert "a1" 0 Status.New []).status) ∧
    ((handleAction (sampleAlert "a1" 0 Status.New []) Status.InReview
        "Start Investigation" "" ⟨5, 10⟩).status = Status.InReview ∧
      (∃ e, (handleAction (sampleAlert "a1" 0 Status.New []) Status.InReview
          "Start Investigation" "" ⟨5, 10⟩).timeline =
            (sampleAlert "a1" 0 Status.New []).timeline ++ [e] ∧
        e.action = "Start Investigation" ∧
        e.notes = (if ("" : String) = "" then none else some "")) ∧
      statusOfAction "Start Investigation" = some Status.InReview) :=
  ⟨by decide,
    workflow_state_machine.2.2.1 (sampleAlert "a1" 0 Status.New []) Status.InReview
      "Start Investigation" "" ⟨5, 10⟩ (by decide)⟩

/-- C6 counterexample: existing alerts p1 and p2 (timestamps 1 and 2, distinct
identifiers) merged with a batch of two alerts sharing identifier n come out
re-sorted by timestamp descending as p2, p1, n, n: the pre-existing alerts are
reordered and the merged collection contains a duplicated identifier. -/
theorem store_merge_counterexample :
    (([sampleAlert "p1" 1 Status.New [], sampleAlert "p2" 2 Status.New []].map
      (fun a => a.id)).Nodup) ∧
    (mergeAlerts [sampleAlert "p1" 1 Status.New [], sampleAlert "p2" 2 Status.New []]
        [sampleAlert "n" 0 Status.New [], sampleAlert "n" 0 Status.New []]).map
      (fun a => a.id) = ["p2", "p1", "n", "n"] ∧
    ¬ (["p2", "p1", "n", "n"] : List String).Nodup := by
  refine ⟨by decide, ?_, by decide⟩
  rw [mergeAlerts]
  have hd : (!decide (("n" : String) = "p1") && !decide (("n" : String) = "p2")) = true := by
    decide
  norm_num [List.mergeSort, List.merge, List.filter, List.take, List.drop,
    tsDescLE, sampleAlert, hd]

lemma tsDescLE_trans (a b c : ComplianceAlert) :
    tsDescLE a b → tsDescLE b c → tsDescLE a c := by
  simp only [tsDescLE, decide_eq_true_eq]
  intro h1 h2
  exact le_trans h2 h1

lemma tsDescLE_total (a b : ComplianceAlert) :
    tsDescLE a b || tsDescLE b a := by
  simp only [tsDescLE, Bool.or_eq_true, decide_eq_true_eq]
  exact le_total b.timestamp a.timestamp

/-- C6 amended: when the incoming batch itself has pairwise-distinct
identifiers, the merge keeps every pre-existing alert and pairwise-distinct
identifiers overall; it re-sorts the whole collection by timestamp descending
(a stable sort), so pre-existing alerts keep their relative order exactly in
the typical case that the existing collection is already in that order. -/
theorem store_merge_spec (prev batch : List ComplianceAlert)
    (hprev : (prev.map (fun a => a.id)).Nodup)
    (hbatch : (batch.map (fun a => a.id)).Nodup) :
    ((mergeAlerts prev batch).map (fun a => a.id)).Nodup ∧
    (∀ a ∈ prev, a ∈ mergeAlerts prev batch) ∧
    (List.Pairwise (fun a b => b.timestamp ≤ a.timestamp) prev →
      List.Sublist prev (mergeAlerts prev batch)) := by
  have hperm : List.Perm (mergeAlerts prev batch)
      (prev ++ batch.filter (fun a => !((prev.map (fun a => a.id)).contains a.id))) :=
    List.mergeSort_perm _ _
  refine ⟨?_, ?_, ?_⟩
  · refine ((hperm.map (fun a => a.id)).nodup_iff).mpr ?_
    rw [List.map_append, List.nodup_append]
    refine ⟨hprev, ?_, ?_⟩
    · exact hbatch.sublist ((List.filter_sublist batch).map (fun a => a.id))
    · intro x hx1 hx2
      simp only [List.mem_map, List.mem_filter, Bool.not_eq_eq_eq_not, Bool.not_true,
        List.elem_eq_mem, decide_eq_false_iff_not] at hx2
      obtain ⟨a, ⟨-, hnotin⟩, rfl⟩ := hx2
      exact hnotin (by simpa using hx1)
  · intro a ha
    exact hperm.mem_iff.mpr (List.mem_append_left _ ha)
  · intro hsorted
    refine List.sublist_mergeSort tsDescLE_trans tsDescLE_total ?_ ?_
    · exact hsorted.imp (fun h => by simpa [tsDescLE] using h)
    · exact List.sublist_append_left _ _

/-- Witness for C6: a sorted two-element collection with distinct identifiers
merged with a fresh one-element batch keeps distinct identifiers, keeps both
pre-existing alerts and keeps them in order. -/
theorem store_merge_spec_witness :
    (([sampleAlert "p2" 2 Status.New [], sampleAlert "p1" 1 Status.New []].map
        (fun a => a.id)).Nodup ∧
      ([sampleAlert "n" 0 Status.New []].map (fun a => a.id)).Nodup ∧
      List.Pairwise (fun a b : ComplianceAlert => b.timestamp ≤ a.timestamp)
        [sampleAlert "p2" 2 Status.New [], sampleAlert "p1" 1 Status.New []]) ∧
    ((mergeAlerts [sampleAlert "p2" 2 Status.New [], sampleAlert "p1" 1 Status.New []]
        [sampleAlert "n" 0 Status.New []]).map (fun a => a.id)).Nodup ∧
    (∀ a ∈ [sampleAlert "p2" 2 Status.New [], sampleAlert "p1" 1 Status.New []],
      a ∈ mergeAlerts [sampleAlert "p2" 2 Status.New [], sampleAlert "p1" 1 Status.New []]
        [sampleAlert "n" 0 Status.New []]) ∧
    List.Sublist [sampleAlert "p2" 2 Status.New [], sampleAlert "p1" 1 Status.New []]
      (mergeAlerts [sampleAlert "p2" 2 Status.New [], sampleAlert "p1" 1 Status.New []]
        [sampleAlert "n" 0 Status.New []]) := by
  have hs : List.Pairwise (fun a b : ComplianceAlert => b.timestamp ≤ a.timestamp)
      [sampleAlert "p2" 2 Status.New [], sampleAlert "p1" 1 Status.New []] := by
    simp [sampleAlert]
  have h := store_merge_spec
    [sampleAlert "p2" 2 Status.New [], sampleAlert "p1" 1 Status.New []]
    [sampleAlert "n" 0 Status.New []] (by decide) (by decide)
  exact ⟨⟨by decide, by decide, hs⟩, h.1, h.2.1, h.2.2 hs⟩

end ComplianceDashboard
